import Mathlib

/-!
Verification of the PISM Spack package descriptor
(`src/packages/pism/package.py`, class `Pism`).

The descriptor is embedded shallowly: a `Resolution` carries the variant
booleans and the resolved dependency locations; `cmake_args`,
`setup_environment` and `setup_run_environment` are translated from the
method bodies; the dependency declarations (`depends_on` lines 75-89) are
embedded as the table `depDecls`.
-/

/-- Errors of the configuration step.  The only error the descriptor can
produce is a missing unconditionally-required dependency (in the source,
`spec[dep]` fails when `dep` was not resolved; the host package manager
raises, the descriptor produces no partial output). -/
inductive BuildError
  | missingDependency (dep : String)
deriving DecidableEq

/-- A resolved configuration, as consumed by the descriptor: a mapping from
variant identifier to boolean (`none` when the variant is absent from the
mapping) and a mapping from dependency target to its resolved location
(`none` when the dependency was not resolved). -/
structure Resolution where
  variants : String → Option Bool
  deps : String → Option String

/-- Translation of the membership test `'+v' in spec` used throughout
`cmake_args` (package.py lines 102-123): true exactly when the variant is
present in the resolution with value true; an absent variant tests false. -/
def hasVariant (spec : Resolution) (v : String) : Bool :=
  spec.variants v == some true

/-- Modelled from the spec: `spec['mpi'].mpicc`, the C compiler wrapper of
the resolved message-passing-interface dependency, lives in the mpi
provider packages, not in this repository; the spec fixes it as the
"C compiler wrapper" sub-path `bin/mpicc` under the resolved location. -/
def mpicc (mpiLocation : String) : String := mpiLocation ++ "/bin/mpicc"

/-- Modelled from the spec: `spec['mpi'].mpicxx`, the C++ compiler wrapper
sub-path `bin/mpicxx` under the resolved mpi location (see `mpicc`). -/
def mpicxx (mpiLocation : String) : String := mpiLocation ++ "/bin/mpicxx"

/-- Translation of `Pism.cmake_args` (package.py lines 94-123): the exact
list of `-DKEY=VALUE` strings the method returns.  The lookup
`spec['mpi']` fails when the mpi dependency has no resolved location;
otherwise the method is a pure expression producing thirteen strings: the
two compiler selections followed by one `YES`/`NO` flag per variant, in
the order written in the source. -/
def cmake_args (spec : Resolution) : Except BuildError (List String) :=
  match spec.deps "mpi" with
  | none => .error (.missingDependency "mpi")
  | some mpi =>
    .ok ["-DCMAKE_C_COMPILER=" ++ mpicc mpi,
         "-DCMAKE_CXX_COMPILER=" ++ mpicxx mpi,
         "-DPism_BUILD_EXTRA_EXECS=" ++ (if hasVariant spec "extra" then "YES" else "NO"),
         "-DBUILD_SHARED_LIBS=" ++ (if hasVariant spec "shared" then "YES" else "NO"),
         "-DPism_BUILD_PYTHON_BINDINGS=" ++ (if hasVariant spec "python" then "YES" else "NO"),
         "-DPism_BUILD_ICEBIN=" ++ (if hasVariant spec "icebin" then "YES" else "NO"),
         "-DPism_USE_PROJ=" ++ (if hasVariant spec "proj" then "YES" else "NO"),
         "-DPism_USE_PARALLEL_NETCDF4=" ++ (if hasVariant spec "parallel-netcdf4" then "YES" else "NO"),
         "-DPism_USE_PNETCDF=" ++ (if hasVariant spec "parallel-netcdf3" then "YES" else "NO"),
         "-DPism_USE_PARALLEL_HDF5=" ++ (if hasVariant spec "parallel-hdf5" then "YES" else "NO"),
         "-DPism_BUILD_PDFS=" ++ (if hasVariant spec "doc" then "YES" else "NO"),
         "-DPism_INSTALL_EXAMPLES=" ++ (if hasVariant spec "examples" then "YES" else "NO"),
         "-DPism_USE_EVERYTRACE=" ++ (if hasVariant spec "everytrace" then "YES" else "NO")]

/-- The spec's `build_arguments` operation: the same data as `cmake_args`
but as ordered key/value pairs, the form in which the spec states the
argument-list contract.  `build_arguments_renders` below proves that
rendering each pair `(K, V)` as the string `-DK=V` recovers `cmake_args`
exactly, so every theorem about `build_arguments` is a theorem about the
source method. -/
def build_arguments (spec : Resolution) : Except BuildError (List (String × String)) :=
  match spec.deps "mpi" with
  | none => .error (.missingDependency "mpi")
  | some mpi =>
    .ok [("CMAKE_C_COMPILER", mpicc mpi),
         ("CMAKE_CXX_COMPILER", mpicxx mpi),
         ("Pism_BUILD_EXTRA_EXECS", if hasVariant spec "extra" then "YES" else "NO"),
         ("BUILD_SHARED_LIBS", if hasVariant spec "shared" then "YES" else "NO"),
         ("Pism_BUILD_PYTHON_BINDINGS", if hasVariant spec "python" then "YES" else "NO"),
         ("Pism_BUILD_ICEBIN", if hasVariant spec "icebin" then "YES" else "NO"),
         ("Pism_USE_PROJ", if hasVariant spec "proj" then "YES" else "NO"),
         ("Pism_USE_PARALLEL_NETCDF4", if hasVariant spec "parallel-netcdf4" then "YES" else "NO"),
         ("Pism_USE_PNETCDF", if hasVariant spec "parallel-netcdf3" then "YES" else "NO"),
         ("Pism_USE_PARALLEL_HDF5", if hasVariant spec "parallel-hdf5" then "YES" else "NO"),
         ("Pism_BUILD_PDFS", if hasVariant spec "doc" then "YES" else "NO"),
         ("Pism_INSTALL_EXAMPLES", if hasVariant spec "examples" then "YES" else "NO"),
         ("Pism_USE_EVERYTRACE", if hasVariant spec "everytrace" then "YES" else "NO")]

/-- Rendering of one key/value pair as a `-DKEY=VALUE` command-line string. -/
def renderFlag (kv : String × String) : String := "-D" ++ kv.1 ++ "=" ++ kv.2

/-- The eleven declared variants, in declaration order
(package.py lines 25-52). -/
def variantNames : List String :=
  ["extra", "shared", "python", "icebin", "proj", "parallel-netcdf4",
   "parallel-netcdf3", "parallel-hdf5", "doc", "examples", "everytrace"]

/-- The cmake flag name each variant controls (package.py lines 102-123). -/
def variantFlagTable : List (String × String) :=
  [("extra", "Pism_BUILD_EXTRA_EXECS"),
   ("shared", "BUILD_SHARED_LIBS"),
   ("python", "Pism_BUILD_PYTHON_BINDINGS"),
   ("icebin", "Pism_BUILD_ICEBIN"),
   ("proj", "Pism_USE_PROJ"),
   ("parallel-netcdf4", "Pism_USE_PARALLEL_NETCDF4"),
   ("parallel-netcdf3", "Pism_USE_PNETCDF"),
   ("parallel-hdf5", "Pism_USE_PARALLEL_HDF5"),
   ("doc", "Pism_BUILD_PDFS"),
   ("examples", "Pism_INSTALL_EXAMPLES"),
   ("everytrace", "Pism_USE_EVERYTRACE")]

/-- The cmake flag name of a declared variant. -/
def variantFlagName (v : String) : String :=
  (variantFlagTable.lookup v).getD ""

/-- A resolution with one variant set to a boolean and everything else
unchanged (the flip used by the single-variant-isolation property). -/
def setVariant (R : Resolution) (v : String) (b : Bool) : Resolution :=
  { R with variants := fun w => if w = v then some b else R.variants w }

/-- `cmake_args` is exactly `build_arguments` with each pair rendered as a
`-DKEY=VALUE` string: the pair-level embedding is faithful to the source. -/
theorem build_arguments_renders (R : Resolution) :
    cmake_args R = (build_arguments R).map (List.map renderFlag) := by
  unfold cmake_args build_arguments
  cases R.deps "mpi" <;> simp [renderFlag, Except.map, mpicc, mpicxx]

/-- The concrete scenario of the spec: all eleven variants present with the
spec-given booleans, mpi resolved to `/opt/mpi`, nothing else resolved. -/
def exampleResolution : Resolution where
  variants := fun v =>
    if v = "extra" then some false
    else if v = "shared" then some true
    else if v = "python" then some false
    else if v = "icebin" then some false
    else if v = "proj" then some true
    else if v = "parallel-netcdf4" then some true
    else if v = "parallel-netcdf3" then some false
    else if v = "parallel-hdf5" then some false
    else if v = "doc" then some false
    else if v = "examples" then some false
    else if v = "everytrace" then some false
    else none
  deps := fun d => if d = "mpi" then some "/opt/mpi" else none

/-- C1: for the concrete resolution {extra:false, shared:true, python:false,
icebin:false, proj:true, parallel-netcdf4:true, parallel-netcdf3:false,
parallel-hdf5:false, doc:false, examples:false, everytrace:false} with mpi
resolved to /opt/mpi, `build_arguments` returns exactly the thirteen-entry
ordered list of the spec's concrete scenario. -/
theorem C1_concrete_scenario :
    build_arguments exampleResolution =
      .ok [("CMAKE_C_COMPILER", "/opt/mpi/bin/mpicc"),
           ("CMAKE_CXX_COMPILER", "/opt/mpi/bin/mpicxx"),
           ("Pism_BUILD_EXTRA_EXECS", "NO"),
           ("BUILD_SHARED_LIBS", "YES"),
           ("Pism_BUILD_PYTHON_BINDINGS", "NO"),
           ("Pism_BUILD_ICEBIN", "NO"),
           ("Pism_USE_PROJ", "YES"),
           ("Pism_USE_PARALLEL_NETCDF4", "YES"),
           ("Pism_USE_PNETCDF", "NO"),
           ("Pism_USE_PARALLEL_HDF5", "NO"),
           ("Pism_BUILD_PDFS", "NO"),
           ("Pism_INSTALL_EXAMPLES", "NO"),
           ("Pism_USE_EVERYTRACE", "NO")] := by
  rfl

/-- Translation of `Pism.setup_environment` (package.py lines 91-92): the
build-environment variables the method sets, as a list of name/value
pairs.  The method reads nothing from the configuration, so the result
ignores its `Resolution` argument. -/
def setup_environment (_spec : Resolution) : List (String × String) :=
  [("I_MPI_FABRICS", "shm:tmi")]

/-- Translation of `Pism.setup_run_environment` (package.py lines 125-127):
the run-environment variables set for a given install location.  Modelled
from the spec: `self.prefix.bin` (the host package manager's path join) is
the install location's `bin` sub-path. -/
def setup_run_environment (installLocation : String) : List (String × String) :=
  [("PISM_PREFIX", installLocation),
   ("PISM_BIN", installLocation ++ "/bin")]

/-- Modelled from the spec: the spec factors the two compiler-selection
flags of `cmake_args` (package.py lines 98-99) into an operation
`compiler_paths` that fails with the missing-dependency error when the
message-passing-interface dependency has no resolved location, and
otherwise returns exactly those two flags. -/
def compiler_paths (spec : Resolution) : Except BuildError (List (String × String)) :=
  match spec.deps "mpi" with
  | none => .error (.missingDependency "mpi")
  | some mpi =>
    .ok [("CMAKE_C_COMPILER", mpicc mpi),
         ("CMAKE_CXX_COMPILER", mpicxx mpi)]

/-- Dependency declarations of the descriptor (package.py lines 75-89):
each entry is the target package together with the variant its `when=`
condition requires to be true, `none` for an unconditional dependency.
The two `depends_on('python', ...)` lines (86-87) additionally restrict
the Pism version range; both share the `+python` variant condition, and
the version restriction constrains the selected version, not the
Resolution, so they are recorded as one entry conditioned on `python`
(matching `extends('python', when='+python')` at line 85). -/
def depDecls : List (String × Option String) :=
  [("fftw", none),
   ("gsl", none),
   ("mpi", none),
   ("netcdf-c", none),
   ("petsc", none),
   ("udunits", none),
   ("proj", none),
   ("everytrace", some "everytrace"),
   ("cmake", none),
   ("python", some "python"),
   ("py-matplotlib", some "python"),
   ("py-numpy", some "python")]

/-- The spec's predicate for the external resolver: whether a declared
dependency participates in the dependency set under a given Resolution.
An unconditional declaration is always required; a conditional one is
required exactly when its variant resolves true.  (Undeclared targets are
not dependencies at all.) -/
def is_dependency_required (dep : String) (R : Resolution) : Bool :=
  match depDecls.lookup dep with
  | some none => true
  | some (some v) => hasVariant R v
  | none => false

/-- C2: for every complete Resolution (all eleven variants present, mpi
resolved), `build_arguments` returns successfully (no exception beyond the
missing-dependency case) and the returned list has exactly thirteen
entries: two compiler selections followed by eleven variant flags. -/
theorem C2_length_thirteen (R : Resolution) (p : String)
    (_hcomplete : ∀ v ∈ variantNames, ∃ b, R.variants v = some b)
    (hmpi : R.deps "mpi" = some p) :
    ∃ l, build_arguments R = .ok l ∧ l.length = 13 := by
  unfold build_arguments
  rw [hmpi]
  exact ⟨_, rfl, rfl⟩

/-- Closed witness for C2 at the spec's concrete scenario. -/
theorem C2_length_thirteen_witness :
    ∃ l, build_arguments exampleResolution = .ok l ∧ l.length = 13 :=
  C2_length_thirteen exampleResolution "/opt/mpi"
    (by intro v hv; fin_cases hv <;> exact ⟨_, rfl⟩) rfl

/-- C3: for every Resolution with all eleven declared variants present and
false and mpi resolved, `build_arguments` returns the two compiler flags
followed by eleven "NO" flags in the declared order. -/
theorem C3_all_false (R : Resolution) (p : String)
    (hfalse : ∀ v ∈ variantNames, R.variants v = some false)
    (hmpi : R.deps "mpi" = some p) :
    build_arguments R =
      .ok [("CMAKE_C_COMPILER", mpicc p),
           ("CMAKE_CXX_COMPILER", mpicxx p),
           ("Pism_BUILD_EXTRA_EXECS", "NO"),
           ("BUILD_SHARED_LIBS", "NO"),
           ("Pism_BUILD_PYTHON_BINDINGS", "NO"),
           ("Pism_BUILD_ICEBIN", "NO"),
           ("Pism_USE_PROJ", "NO"),
           ("Pism_USE_PARALLEL_NETCDF4", "NO"),
           ("Pism_USE_PNETCDF", "NO"),
           ("Pism_USE_PARALLEL_HDF5", "NO"),
           ("Pism_BUILD_PDFS", "NO"),
           ("Pism_INSTALL_EXAMPLES", "NO"),
           ("Pism_USE_EVERYTRACE", "NO")] := by
  have h1 := hfalse "extra" (by simp [variantNames])
  have h2 := hfalse "shared" (by simp [variantNames])
  have h3 := hfalse "python" (by simp [variantNames])
  have h4 := hfalse "icebin" (by simp [variantNames])
  have h5 := hfalse "proj" (by simp [variantNames])
  have h6 := hfalse "parallel-netcdf4" (by simp [variantNames])
  have h7 := hfalse "parallel-netcdf3" (by simp [variantNames])
  have h8 := hfalse "parallel-hdf5" (by simp [variantNames])
  have h9 := hfalse "doc" (by simp [variantNames])
  have h10 := hfalse "examples" (by simp [variantNames])
  have h11 := hfalse "everytrace" (by simp [variantNames])
  unfold build_arguments
  rw [hmpi]
  simp [hasVariant, h1, h2, h3, h4, h5, h6, h7, h8, h9, h10, h11]

/-- A concrete Resolution with all eleven variants present and false and
mpi resolved to /opt/mpi. -/
def allFalseResolution : Resolution where
  variants := fun v => if v ∈ variantNames then some false else none
  deps := fun d => if d = "mpi" then some "/opt/mpi" else none

/-- Closed witness for C3 at `allFalseResolution`. -/
theorem C3_all_false_witness :
    build_arguments allFalseResolution =
      .ok [("CMAKE_C_COMPILER", mpicc "/opt/mpi"),
           ("CMAKE_CXX_COMPILER", mpicxx "/opt/mpi"),
           ("Pism_BUILD_EXTRA_EXECS", "NO"),
           ("BUILD_SHARED_LIBS", "NO"),
           ("Pism_BUILD_PYTHON_BINDINGS", "NO"),
           ("Pism_BUILD_ICEBIN", "NO"),
           ("Pism_USE_PROJ", "NO"),
           ("Pism_USE_PARALLEL_NETCDF4", "NO"),
           ("Pism_USE_PNETCDF", "NO"),
           ("Pism_USE_PARALLEL_HDF5", "NO"),
           ("Pism_BUILD_PDFS", "NO"),
           ("Pism_INSTALL_EXAMPLES", "NO"),
           ("Pism_USE_EVERYTRACE", "NO")] :=
  C3_all_false allFalseResolution "/opt/mpi"
    (by intro v hv; fin_cases hv <;> rfl) rfl

/-- C5: for every variant assignment, when the message-passing-interface
dependency has no resolved location, both `compiler_paths` and
`build_arguments` fail with the missing-dependency error and produce no
partial output. -/
theorem C5_missing_mpi (R : Resolution)
    (hmpi : R.deps "mpi" = none) :
    compiler_paths R = .error (.missingDependency "mpi") ∧
    build_arguments R = .error (.missingDependency "mpi") := by
  constructor
  · unfold compiler_paths
    rw [hmpi]
  · unfold build_arguments
    rw [hmpi]

/-- A concrete Resolution (the spec's all-false variant assignment) in
which no dependency at all is resolved. -/
def noDepsResolution : Resolution where
  variants := fun v => if v ∈ variantNames then some false else none
  deps := fun _ => none

/-- Closed witness for C5 at `noDepsResolution`. -/
theorem C5_missing_mpi_witness :
    compiler_paths noDepsResolution = .error (.missingDependency "mpi") ∧
    build_arguments noDepsResolution = .error (.missingDependency "mpi") :=
  C5_missing_mpi noDepsResolution rfl

/-- C8: `setup_run_environment` is total with no failure modes and returns
exactly two entries, the root-prefix variable bound to the install
location and the binaries-directory variable bound to its `bin` sub-path;
at the concrete location `/opt/pism` the entries are `/opt/pism` and
`/opt/pism/bin`. -/
theorem C8_runtime_environment :
    (∀ loc : String,
        setup_run_environment loc =
          [("PISM_PREFIX", loc), ("PISM_BIN", loc ++ "/bin")] ∧
        (setup_run_environment loc).length = 2) ∧
    setup_run_environment "/opt/pism" =
      [("PISM_PREFIX", "/opt/pism"), ("PISM_BIN", "/opt/pism/bin")] :=
  ⟨fun _ => ⟨rfl, rfl⟩, rfl⟩

/-- C9: `build_arguments` is deterministic: two Resolutions with equal
variant booleans and equal resolved dependency locations yield list-equal
outputs, for the pair-level list and for the rendered `cmake_args` list
alike. -/
theorem C9_deterministic (R1 R2 : Resolution)
    (hvar : ∀ v, R1.variants v = R2.variants v)
    (hdep : ∀ d, R1.deps d = R2.deps d) :
    build_arguments R1 = build_arguments R2 ∧ cmake_args R1 = cmake_args R2 := by
  have h : R1 = R2 := by
    cases R1
    cases R2
    simp only [Resolution.mk.injEq]
    exact ⟨funext hvar, funext hdep⟩
  rw [h]
  exact ⟨rfl, rfl⟩

/-- Closed witness for C9: two definitionally distinct but extensionally
equal copies of the concrete scenario resolve to the same output. -/
theorem C9_deterministic_witness :
    build_arguments exampleResolution = build_arguments exampleResolution ∧
    cmake_args exampleResolution = cmake_args exampleResolution :=
  C9_deterministic exampleResolution exampleResolution
    (fun _ => rfl) (fun _ => rfl)

/-- C10: independently of every variant value and every dependency
location, the build-environment setup sets exactly one environment
variable, `I_MPI_FABRICS`, to the fixed value `shm:tmi`. -/
theorem C10_build_env (R : Resolution) :
    setup_environment R = [("I_MPI_FABRICS", "shm:tmi")] ∧
    (setup_environment R).length = 1 :=
  ⟨rfl, rfl⟩

/-- The successful result of `build_arguments` once the mpi dependency has
resolved to `p` (the thirteen entries, abstracted over the resolution). -/
def argList (R : Resolution) (p : String) : List (String × String) :=
  [("CMAKE_C_COMPILER", mpicc p),
   ("CMAKE_CXX_COMPILER", mpicxx p),
   ("Pism_BUILD_EXTRA_EXECS", if hasVariant R "extra" then "YES" else "NO"),
   ("BUILD_SHARED_LIBS", if hasVariant R "shared" then "YES" else "NO"),
   ("Pism_BUILD_PYTHON_BINDINGS", if hasVariant R "python" then "YES" else "NO"),
   ("Pism_BUILD_ICEBIN", if hasVariant R "icebin" then "YES" else "NO"),
   ("Pism_USE_PROJ", if hasVariant R "proj" then "YES" else "NO"),
   ("Pism_USE_PARALLEL_NETCDF4", if hasVariant R "parallel-netcdf4" then "YES" else "NO"),
   ("Pism_USE_PNETCDF", if hasVariant R "parallel-netcdf3" then "YES" else "NO"),
   ("Pism_USE_PARALLEL_HDF5", if hasVariant R "parallel-hdf5" then "YES" else "NO"),
   ("Pism_BUILD_PDFS", if hasVariant R "doc" then "YES" else "NO"),
   ("Pism_INSTALL_EXAMPLES", if hasVariant R "examples" then "YES" else "NO"),
   ("Pism_USE_EVERYTRACE", if hasVariant R "everytrace" then "YES" else "NO")]

/-- With mpi resolved, `build_arguments` succeeds with `argList`. -/
theorem build_arguments_ok (R : Resolution) (p : String)
    (hmpi : R.deps "mpi" = some p) :
    build_arguments R = .ok (argList R p) := by
  unfold build_arguments argList
  rw [hmpi]

/-- C4: flipping one declared variant from false to true, leaving all other
variants and all dependency locations unchanged, changes exactly the
entry of that variant from "NO" to "YES": the new output is the old list
with only that position overwritten. -/
theorem C4_single_variant_isolation (R : Resolution) (v p : String)
    (hv : v ∈ variantNames) (hfalse : R.variants v = some false)
    (hmpi : R.deps "mpi" = some p) :
    ∃ l i, build_arguments R = .ok l ∧
      l.get? i = some (variantFlagName v, "NO") ∧
      build_arguments (setVariant R v true) = .ok (l.set i (variantFlagName v, "YES")) := by
  have hmpi2 : (setVariant R v true).deps "mpi" = some p := hmpi
  simp only [variantNames, List.mem_cons, List.not_mem_nil, or_false] at hv
  rcases hv with rfl | rfl | rfl | rfl | rfl | rfl | rfl | rfl | rfl | rfl | rfl
  · exact ⟨argList R p, 2, build_arguments_ok R p hmpi,
      by simp [argList, hasVariant, hfalse, variantFlagName, variantFlagTable, List.lookup],
      by rw [build_arguments_ok (setVariant R "extra" true) p hmpi2]
         simp [argList, setVariant, hasVariant, hfalse, variantFlagName, variantFlagTable, List.lookup]⟩
  · exact ⟨argList R p, 3, build_arguments_ok R p hmpi,
      by simp [argList, hasVariant, hfalse, variantFlagName, variantFlagTable, List.lookup],
      by rw [build_arguments_ok (setVariant R "shared" true) p hmpi2]
         simp [argList, setVariant, hasVariant, hfalse, variantFlagName, variantFlagTable, List.lookup]⟩
  · exact ⟨argList R p, 4, build_arguments_ok R p hmpi,
      by simp [argList, hasVariant, hfalse, variantFlagName, variantFlagTable, List.lookup],
      by rw [build_arguments_ok (setVariant R "python" true) p hmpi2]
         simp [argList, setVariant, hasVariant, hfalse, variantFlagName, variantFlagTable, List.lookup]⟩
  · exact ⟨argList R p, 5, build_arguments_ok R p hmpi,
      by simp [argList, hasVariant, hfalse, variantFlagName, variantFlagTable, List.lookup],
      by rw [build_arguments_ok (setVariant R "icebin" true) p hmpi2]
         simp [argList, setVariant, hasVariant, hfalse, variantFlagName, variantFlagTable, List.lookup]⟩
  · exact ⟨argList R p, 6, build_arguments_ok R p hmpi,
      by simp [argList, hasVariant, hfalse, variantFlagName, variantFlagTable, List.lookup],
      by rw [build_arguments_ok (setVariant R "proj" true) p hmpi2]
         simp [argList, setVariant, hasVariant, hfalse, variantFlagName, variantFlagTable, List.lookup]⟩
  · exact ⟨argList R p, 7, build_arguments_ok R p hmpi,
      by simp [argList, hasVariant, hfalse, variantFlagName, variantFlagTable, List.lookup],
      by rw [build_arguments_ok (setVariant R "parallel-netcdf4" true) p hmpi2]
         simp [argList, setVariant, hasVariant, hfalse, variantFlagName, variantFlagTable, List.lookup]⟩
  · exact ⟨argList R p, 8, build_arguments_ok R p hmpi,
      by simp [argList, hasVariant, hfalse, variantFlagName, variantFlagTable, List.lookup],
      by rw [build_arguments_ok (setVariant R "parallel-netcdf3" true) p hmpi2]
         simp [argList, setVariant, hasVariant, hfalse, variantFlagName, variantFlagTable, List.lookup]⟩
  · exact ⟨argList R p, 9, build_arguments_ok R p hmpi,
      by simp [argList, hasVariant, hfalse, variantFlagName, variantFlagTable, List.lookup],
      by rw [build_arguments_ok (setVariant R "parallel-hdf5" true) p hmpi2]
         simp [argList, setVariant, hasVariant, hfalse, variantFlagName, variantFlagTable, List.lookup]⟩
  · exact ⟨argList R p, 10, build_arguments_ok R p hmpi,
      by simp [argList, hasVariant, hfalse, variantFlagName, variantFlagTable, List.lookup],
      by rw [build_arguments_ok (setVariant R "doc" true) p hmpi2]
         simp [argList, setVariant, hasVariant, hfalse, variantFlagName, variantFlagTable, List.lookup]⟩
  · exact ⟨argList R p, 11, build_arguments_ok R p hmpi,
      by simp [argList, hasVariant, hfalse, variantFlagName, variantFlagTable, List.lookup],
      by rw [build_arguments_ok (setVariant R "examples" true) p hmpi2]
         simp [argList, setVariant, hasVariant, hfalse, variantFlagName, variantFlagTable, List.lookup]⟩
  · exact ⟨argList R p, 12, build_arguments_ok R p hmpi,
      by simp [argList, hasVariant, hfalse, variantFlagName, variantFlagTable, List.lookup],
      by rw [build_arguments_ok (setVariant R "everytrace" true) p hmpi2]
         simp [argList, setVariant, hasVariant, hfalse, variantFlagName, variantFlagTable, List.lookup]⟩

/-- Closed witness for C4: flipping `proj` in the all-false resolution. -/
theorem C4_single_variant_isolation_witness :
    ∃ l i, build_arguments allFalseResolution = .ok l ∧
      l.get? i = some (variantFlagName "proj", "NO") ∧
      build_arguments (setVariant allFalseResolution "proj" true) =
        .ok (l.set i (variantFlagName "proj", "YES")) :=
  C4_single_variant_isolation allFalseResolution "proj" "/opt/mpi"
    (by simp [variantNames]) rfl rfl

/-- A Resolution from which every variant is absent, with mpi resolved:
the input on which the spec expects an incomplete-resolution rejection. -/
def absentVariantsResolution : Resolution where
  variants := fun _ => none
  deps := fun d => if d = "mpi" then some "/opt/mpi" else none

/-- C6 counterexample: on a Resolution from which all eleven declared
variants are absent, `build_arguments` does not reject at all: it returns
the full thirteen-entry list, silently substituting the default "NO" for
every missing variant.  No incomplete-resolution error exists in the
source (every variant test is a membership test that treats an absent
variant as false). -/
theorem C6_counterexample :
    absentVariantsResolution.variants "extra" = none ∧
    build_arguments absentVariantsResolution =
      .ok [("CMAKE_C_COMPILER", "/opt/mpi/bin/mpicc"),
           ("CMAKE_CXX_COMPILER", "/opt/mpi/bin/mpicxx"),
           ("Pism_BUILD_EXTRA_EXECS", "NO"),
           ("BUILD_SHARED_LIBS", "NO"),
           ("Pism_BUILD_PYTHON_BINDINGS", "NO"),
           ("Pism_BUILD_ICEBIN", "NO"),
           ("Pism_USE_PROJ", "NO"),
           ("Pism_USE_PARALLEL_NETCDF4", "NO"),
           ("Pism_USE_PNETCDF", "NO"),
           ("Pism_USE_PARALLEL_HDF5", "NO"),
           ("Pism_BUILD_PDFS", "NO"),
           ("Pism_INSTALL_EXAMPLES", "NO"),
           ("Pism_USE_EVERYTRACE", "NO")] :=
  ⟨rfl, rfl⟩

/-- C6 amended: when `build_arguments` receives a Resolution in which a
declared variant is absent (mpi resolved), it does not raise: it returns
the full thirteen-entry list and silently substitutes the default, the
absent variant's entry carrying the value "NO". -/
theorem C6_absent_variant_defaults (R : Resolution) (p v : String)
    (hv : v ∈ variantNames) (habsent : R.variants v = none)
    (hmpi : R.deps "mpi" = some p) :
    ∃ l, build_arguments R = .ok l ∧ l.length = 13 ∧
      l.get? (2 + variantNames.indexOf v) = some (variantFlagName v, "NO") := by
  refine ⟨argList R p, build_arguments_ok R p hmpi, rfl, ?_⟩
  simp only [variantNames, List.mem_cons, List.not_mem_nil, or_false] at hv
  rcases hv with rfl | rfl | rfl | rfl | rfl | rfl | rfl | rfl | rfl | rfl | rfl <;>
    simp [argList, hasVariant, habsent, variantFlagName, variantFlagTable,
      List.lookup, variantNames, List.indexOf, List.findIdx, List.findIdx.go]

/-- Closed witness for the amended C6 at `absentVariantsResolution`. -/
theorem C6_absent_variant_defaults_witness :
    ∃ l, build_arguments absentVariantsResolution = .ok l ∧ l.length = 13 ∧
      l.get? (2 + variantNames.indexOf "extra") =
        some (variantFlagName "extra", "NO") :=
  C6_absent_variant_defaults absentVariantsResolution "/opt/mpi" "extra"
    (by simp [variantNames]) rfl rfl

/-- C7 counterexample: `py-matplotlib` is a declared dependency other than
`everytrace`, yet it is not required under the all-false resolution: its
declaration (package.py line 88) is conditional on the `python` variant,
so the claim that every declared dependency other than `everytrace` is
always required is false. -/
theorem C7_counterexample :
    ("py-matplotlib", some "python") ∈ depDecls ∧
    "py-matplotlib" ≠ "everytrace" ∧
    is_dependency_required "py-matplotlib" allFalseResolution = false := by
  refine ⟨by simp [depDecls], by decide, rfl⟩

/-- C7 amended: `is_dependency_required` of `everytrace` equals the
`everytrace` variant's boolean; the three python-conditioned declarations
(`python`, `py-matplotlib`, `py-numpy`, package.py lines 85-89) are
required exactly when the `python` variant resolves true; every other
declared dependency is always required. -/
theorem C7_dependency_conditions (R : Resolution) :
    is_dependency_required "everytrace" R = hasVariant R "everytrace" ∧
    (∀ d ∈ ["fftw", "gsl", "mpi", "netcdf-c", "petsc", "udunits", "proj", "cmake"],
      is_dependency_required d R = true) ∧
    (∀ d ∈ ["python", "py-matplotlib", "py-numpy"],
      is_dependency_required d R = hasVariant R "python") := by
  refine ⟨rfl, ?_, ?_⟩
  · intro d hd
    fin_cases hd <;> rfl
  · intro d hd
    fin_cases hd <;> rfl

/-- Closed witness for the amended C7 at the concrete scenario. -/
theorem C7_dependency_conditions_witness :
    is_dependency_required "everytrace" exampleResolution =
      hasVariant exampleResolution "everytrace" ∧
    is_dependency_required "gsl" exampleResolution = true ∧
    is_dependency_required "py-numpy" exampleResolution =
      hasVariant exampleResolution "python" :=
  ⟨(C7_dependency_conditions exampleResolution).1,
   (C7_dependency_conditions exampleResolution).2.1 "gsl" (by simp),
   (C7_dependency_conditions exampleResolution).2.2 "py-numpy" (by simp)⟩
